import Mathlib

/-!
Verification development for the Stitch repository's validation core
(`backend/utils/validation.py`) and data-preparation arithmetic
(`backend/services/model_service.py`).

The Python payloads are JSON-like structured values; we embed them as the
inductive type `PyVal`.  Python `dict`s are association lists with unique
keys in insertion order; reads use first-match lookup and writes update in
place (or append), matching Python dict semantics.  Python floats are
modelled as rationals (`Rat`): the validators never perform float
arithmetic beyond coercion, so no rounding behaviour is observable in the
properties below.  Machine integers do not overflow in Python, so `Int` is
exact.  Fallible Python code (raising `ValueError`/`TypeError`) is
embedded in `Except PyErr`.
-/

inductive PyVal where
  | none : PyVal
  | bool (b : Bool) : PyVal
  | int (n : Int) : PyVal
  | float (q : Rat) : PyVal
  | str (s : String) : PyVal
  | list (xs : List PyVal) : PyVal
  | dict (kvs : List (String × PyVal)) : PyVal

abbrev PyDict := List (String × PyVal)

/-- Python exception kinds relevant to the validators: the spec's
`InvalidArchitecture` / `InvalidHyperparams` are `ValueError`s raised with
a message; `TypeError` is any other uncaught type failure. -/
inductive PyErr where
  | valueError (msg : String) : PyErr
  | typeError (msg : String) : PyErr
deriving DecidableEq

/-- First-match key lookup, as in a Python dict (unique keys). -/
def lookup (k : String) : PyDict → Option PyVal
  | [] => Option.none
  | (k2, v) :: rest => if k2 = k then Option.some v else lookup k rest

/-- Python dict assignment `d[k] = v`: update in place when the key exists,
append otherwise (insertion order preserved). -/
def dictSet (kvs : PyDict) (k : String) (v : PyVal) : PyDict :=
  if (lookup k kvs).isSome then
    kvs.map (fun kv => if kv.1 = k then (k, v) else kv)
  else kvs ++ [(k, v)]

/-- Remove a key from a dict (used to state that a field is ignored). -/
def eraseKey (k : String) (kvs : PyDict) : PyDict :=
  kvs.filter (fun kv => kv.1 ≠ k)

/-- `base` overlaid with every key/value pair of `upd` in order, as in
`d = dict(base); for k, v in upd.items(): d[k] = v`. -/
def mergeDict (base upd : PyDict) : PyDict :=
  upd.foldl (fun acc kv => dictSet acc kv.1 kv.2) base

/-- Python truthiness (`bool(x)`) for the embedded values. -/
def pyTruthy : PyVal → Bool
  | PyVal.none => false
  | PyVal.bool b => b
  | PyVal.int n => n != 0
  | PyVal.float q => q != 0
  | PyVal.str s => s != ""
  | PyVal.list xs => !xs.isEmpty
  | PyVal.dict kvs => !kvs.isEmpty

/-- ASCII lower-casing of a character (`str.lower` on the identifiers the
code compares against is ASCII-only). -/
def lowerChar (c : Char) : Char :=
  if 65 ≤ c.toNat ∧ c.toNat ≤ 90 then Char.ofNat (c.toNat + 32) else c

/-- ASCII `str.lower`. -/
def lowerStr (s : String) : String := String.mk (s.data.map lowerChar)

/-- Python `str(x)`.  Only the `str` / `bool` / `none` / `int` cases ever
feed the validators' string comparisons; the float/list/dict forms are
placeholder renderings (Python's exact `repr` differs) and no property
below depends on them. -/
def pyStr : PyVal → String
  | PyVal.str s => s
  | PyVal.bool b => if b then "True" else "False"
  | PyVal.none => "None"
  | PyVal.int n => toString n
  | PyVal.float q => toString q.num ++ "." ++ toString q.den
  | PyVal.list _ => "[...]"
  | PyVal.dict _ => "dict"

/-- Strip ASCII whitespace from both ends (Python's `int()`/`float()`
accept surrounding whitespace). -/
def trimWs (cs : List Char) : List Char :=
  ((cs.dropWhile Char.isWhitespace).reverse.dropWhile Char.isWhitespace).reverse

/-- Numeric value of a digit string (assumes all chars are digits). -/
def natOfDigits (cs : List Char) : Nat :=
  cs.foldl (fun a c => 10 * a + (c.toNat - 48)) 0

/-- Python `int(s)` on a string: optional sign then decimal digits;
anything else (including float syntax) is rejected. -/
def pyParseInt (s : String) : Option Int :=
  match trimWs s.data with
  | [] => Option.none
  | c :: rest =>
    if c = '+' then
      if !rest.isEmpty && rest.all Char.isDigit then Option.some (natOfDigits rest)
      else Option.none
    else if c = '-' then
      if !rest.isEmpty && rest.all Char.isDigit then Option.some (-(natOfDigits rest : Int))
      else Option.none
    else
      if (c :: rest).all Char.isDigit then Option.some (natOfDigits (c :: rest))
      else Option.none

/-- Exponent suffix of a float literal: empty, or `e`/`E` with optional
sign and digits. -/
def parseExpPart (cs : List Char) : Option Int :=
  match cs with
  | [] => Option.some 0
  | c :: rest =>
    if c = 'e' ∨ c = 'E' then
      match rest with
      | '+' :: d =>
        if !d.isEmpty && d.all Char.isDigit then Option.some (natOfDigits d) else Option.none
      | '-' :: d =>
        if !d.isEmpty && d.all Char.isDigit then Option.some (-(natOfDigits d : Int)) else Option.none
      | d =>
        if !d.isEmpty && d.all Char.isDigit then Option.some (natOfDigits d) else Option.none
    else Option.none

/-- Unsigned part of a Python float literal: `digits`, `digits.digits?`,
or `.digits`, each with an optional exponent. -/
def parseUnsignedFloat (cs : List Char) : Option Rat :=
  let ip := cs.takeWhile Char.isDigit
  let r1 := cs.dropWhile Char.isDigit
  match r1 with
  | '.' :: r2 =>
    let fp := r2.takeWhile Char.isDigit
    let r3 := r2.dropWhile Char.isDigit
    if ip.isEmpty && fp.isEmpty then Option.none
    else
      (parseExpPart r3).map (fun e =>
        ((natOfDigits ip : Rat) + (natOfDigits fp : Rat) / (10 : Rat) ^ fp.length) * (10 : Rat) ^ e)
  | _ =>
    if ip.isEmpty then Option.none
    else (parseExpPart r1).map (fun e => (natOfDigits ip : Rat) * (10 : Rat) ^ e)

/-- Python `float(s)` on a string. -/
def pyParseFloat (s : String) : Option Rat :=
  match trimWs s.data with
  | [] => Option.none
  | '+' :: r => parseUnsignedFloat r
  | '-' :: r => (parseUnsignedFloat r).map (fun q => -q)
  | cs => parseUnsignedFloat cs

/-- Truncation toward zero, as Python's `int(float)`. -/
def ratTrunc (q : Rat) : Int := if 0 ≤ q then ⌊q⌋ else ⌈q⌉

/-- Python `int(x)`: ints pass through, bools become 0/1, floats truncate
toward zero, strings parse strictly, everything else is a `TypeError`. -/
def pyInt : PyVal → Except PyErr Int
  | PyVal.int n => Except.ok n
  | PyVal.bool b => Except.ok (if b then 1 else 0)
  | PyVal.float q => Except.ok (ratTrunc q)
  | PyVal.str s =>
    match pyParseInt s with
    | Option.some n => Except.ok n
    | Option.none => Except.error (PyErr.valueError "invalid literal for int")
  | _ => Except.error (PyErr.typeError "int argument must be a string or a number")

/-- Python `float(x)`. -/
def pyFloat : PyVal → Except PyErr Rat
  | PyVal.float q => Except.ok q
  | PyVal.int n => Except.ok (n : Rat)
  | PyVal.bool b => Except.ok (if b then 1 else 0)
  | PyVal.str s =>
    match pyParseFloat s with
    | Option.some q => Except.ok q
    | Option.none => Except.error (PyErr.valueError "could not convert string to float")
  | _ => Except.error (PyErr.typeError "float argument must be a string or a number")

/-- Python iteration `for x in v`: lists yield their elements, strings
their characters (as 1-char strings), dicts their keys; numbers, booleans
and `None` raise `TypeError`. -/
def pyIter : PyVal → Except PyErr (List PyVal)
  | PyVal.list xs => Except.ok xs
  | PyVal.str s => Except.ok (s.data.map (fun c => PyVal.str (String.mk [c])))
  | PyVal.dict kvs => Except.ok (kvs.map (fun kv => PyVal.str kv.1))
  | _ => Except.error (PyErr.typeError "object is not iterable")

def exceptIsOk {ε α : Type} : Except ε α → Bool
  | Except.ok _ => true
  | Except.error _ => false

def isDictV : PyVal → Bool
  | PyVal.dict _ => true
  | _ => false

/-- Values Python cannot iterate over. -/
def notIterable : PyVal → Bool
  | PyVal.int _ => true
  | PyVal.float _ => true
  | PyVal.bool _ => true
  | PyVal.none => true
  | _ => false

/-! ## Architecture validation (`validation.py`, `validate_architecture`) -/

def MNIST_INPUT_SIZE : Int := 28 * 28

/-- A sanitized layer descriptor: the source appends either
`{"type": "linear", "in": i, "out": o}` or `{"type": t}`. -/
inductive Layer where
  | linear (inDim outDim : Int) : Layer
  | other (t : String) : Layer
deriving DecidableEq

structure ArchitectureSpec where
  input_size : Int
  layers : List Layer
deriving DecidableEq

/-- Body of the per-layer loop of `validate_architecture` (lines 33-49):
given the running `prev_out`, produce the sanitized layer and the new
`prev_out`. -/
def sanitizeLayer (prev : Int) (layer : PyVal) : Except PyErr (Layer × Int) :=
  match layer with
  | PyVal.dict kvs =>
    let t := lowerStr (pyStr ((lookup "type" kvs).getD (PyVal.str "linear")))
    if t = "linear" then
      let in_raw := (lookup "in" kvs).getD (PyVal.int prev)
      let out_raw := (lookup "out" kvs).getD in_raw
      match pyInt in_raw with
      | Except.error _ => Except.error (PyErr.valueError "Linear layer dimensions must be integers.")
      | Except.ok i =>
        match pyInt out_raw with
        | Except.error _ => Except.error (PyErr.valueError "Linear layer dimensions must be integers.")
        | Except.ok o => Except.ok (Layer.linear i o, o)
    else Except.ok (Layer.other t, prev)
  | _ => Except.error (PyErr.valueError "Each layer must be described by an object.")

/-- The whole loop of `validate_architecture`: left fold carrying
`prev_out`. -/
def sanitizeLayers : Int → List PyVal → Except PyErr (List Layer)
  | _, [] => Except.ok []
  | prev, l :: ls =>
    match sanitizeLayer prev l with
    | Except.error e => Except.error e
    | Except.ok (lay, prev2) =>
      match sanitizeLayers prev2 ls with
      | Except.error e => Except.error e
      | Except.ok rest => Except.ok (lay :: rest)

/-- The raw `input_size` value read by `validate_architecture`
(`payload.get("input_size", MNIST_INPUT_SIZE)`). -/
def inputSizeRaw (kvs : PyDict) : PyVal :=
  (lookup "input_size" kvs).getD (PyVal.int MNIST_INPUT_SIZE)

/-- The raw `layers` value read by `validate_architecture`
(`payload.get("layers")`, i.e. `None` when absent). -/
def layersRaw (kvs : PyDict) : PyVal :=
  (lookup "layers" kvs).getD PyVal.none

/-- Does a result avoid `TypeError` (i.e. is it a success or an
`InvalidArchitecture`-style `ValueError`)? -/
def okOrValueError {α : Type} : Except PyErr α → Bool
  | Except.ok _ => true
  | Except.error (PyErr.valueError _) => true
  | Except.error (PyErr.typeError _) => false

/-- `validate_architecture` (validation.py lines 16-51).  Note the source
order: the `layers` truthiness check precedes the `input_size` coercion;
iterating a non-iterable `layers` value is an uncaught `TypeError`. -/
def validate_architecture (payload : PyVal) : Except PyErr ArchitectureSpec :=
  match payload with
  | PyVal.dict kvs =>
    let layers_raw := layersRaw kvs
    if pyTruthy layers_raw then
      match pyInt (inputSizeRaw kvs) with
      | Except.error _ =>
        Except.error (PyErr.valueError "`architecture.input_size` must be convertible to int.")
      | Except.ok input_size =>
        match pyIter layers_raw with
        | Except.error e => Except.error e
        | Except.ok items =>
          match sanitizeLayers input_size items with
          | Except.error e => Except.error e
          | Except.ok ls => Except.ok ⟨input_size, ls⟩
    else Except.error (PyErr.valueError "`architecture.layers` must contain at least one layer.")
  | _ => Except.error (PyErr.valueError "`architecture` must be an object.")

/-- Spec-side per-layer step, following the spec's words: "resolve
`in := raw.in if present else prev_out`, `out := raw.out if present else
in`" — where the default for `out` is the already *resolved* (integer)
`in`, unlike the source which defaults to the raw `in` value and then
coerces. -/
def specLayerStep (prev : Int) (layer : PyVal) : Except PyErr (Layer × Int) :=
  match layer with
  | PyVal.dict kvs =>
    let t := lowerStr (pyStr ((lookup "type" kvs).getD (PyVal.str "linear")))
    if t = "linear" then
      match (match lookup "in" kvs with
             | Option.some v => pyInt v
             | Option.none => Except.ok prev) with
      | Except.error _ => Except.error (PyErr.valueError "Linear layer dimensions must be integers.")
      | Except.ok i =>
        match (match lookup "out" kvs with
               | Option.some v => pyInt v
               | Option.none => Except.ok i) with
        | Except.error _ => Except.error (PyErr.valueError "Linear layer dimensions must be integers.")
        | Except.ok o => Except.ok (Layer.linear i o, o)
    else Except.ok (Layer.other t, prev)
  | _ => Except.error (PyErr.valueError "Each layer must be described by an object.")

/-- Spec-side dimension-inference pass: left-to-right, carrying
`prev_out`. -/
def specPass : Int → List PyVal → Except PyErr (List Layer)
  | _, [] => Except.ok []
  | prev, l :: ls =>
    match specLayerStep prev l with
    | Except.error e => Except.error e
    | Except.ok (lay, prev2) =>
      match specPass prev2 ls with
      | Except.error e => Except.error e
      | Except.ok rest => Except.ok (lay :: rest)

/-- The spec's worked example payload for `validate_architecture`. -/
def c1ExamplePayload : PyVal :=
  PyVal.dict
    [("input_size", PyVal.int 784),
     ("layers", PyVal.list
       [PyVal.dict [("type", PyVal.str "linear"), ("out", PyVal.int 128)],
        PyVal.dict [("type", PyVal.str "relu")],
        PyVal.dict [("type", PyVal.str "linear"), ("out", PyVal.int 10)],
        PyVal.dict [("type", PyVal.str "softmax")]])]

/-! ## Hyperparameter validation (`validation.py`, `validate_hyperparams`)

Rational constants for the float-valued defaults.  They are referenced by
name everywhere (never recomputed), mirroring the single
`DEFAULT_HYPERPARAMS` constant in the source. -/

def LR_DEFAULT : Rat := 1 / 10
def MOMENTUM_DEFAULT : Rat := 0
def TRAIN_SPLIT_DEFAULT : Rat := 9 / 10
def BETA1_DEFAULT : Rat := 9 / 10
def BETA2_DEFAULT : Rat := 999 / 1000
def EPS_DEFAULT : Rat := 1 / 100000000

/-- `DEFAULT_HYPERPARAMS["optimizer"]` (validation.py line 7). -/
def DEFAULT_OPTIMIZER : PyDict :=
  [("type", PyVal.str "sgd"), ("lr", PyVal.float LR_DEFAULT), ("momentum", PyVal.float MOMENTUM_DEFAULT)]

/-- The canonical hyperparameter record.  Top-level fields always have
their canonical types after validation; the optimizer stays a dict
because unknown keys pass through the merge. -/
structure HyperparamSpec where
  epochs : Int
  batch_size : Int
  optimizer : PyDict
  loss : String
  seed : Option Int
  train_split : Rat
  shuffle : Bool
  max_samples : Int

/-- `DEFAULT_HYPERPARAMS` (validation.py lines 4-13). -/
def DEFAULT_HYPERPARAMS : HyperparamSpec :=
  ⟨5, 64, DEFAULT_OPTIMIZER, "cross_entropy", Option.none, TRAIN_SPLIT_DEFAULT, true, 4096⟩

/-- One strict top-level int field: absent keeps the default, present
coerces with `int()`, failure raises `ValueError` naming the field. -/
def getIntField (kvs : PyDict) (key msg : String) (dflt : Int) : Except PyErr Int :=
  match lookup key kvs with
  | Option.none => Except.ok dflt
  | Option.some v =>
    match pyInt v with
    | Except.ok n => Except.ok n
    | Except.error _ => Except.error (PyErr.valueError msg)

/-- One strict top-level float field (only `train_split`). -/
def getFloatField (kvs : PyDict) (key msg : String) (dflt : Rat) : Except PyErr Rat :=
  match lookup key kvs with
  | Option.none => Except.ok dflt
  | Option.some v =>
    match pyFloat v with
    | Except.ok q => Except.ok q
    | Except.error _ => Except.error (PyErr.valueError msg)

/-- `shuffle`: truthiness coercion, never fails (lines 80-81). -/
def getShuffle (kvs : PyDict) : Bool :=
  match lookup "shuffle" kvs with
  | Option.none => DEFAULT_HYPERPARAMS.shuffle
  | Option.some v => pyTruthy v

/-- `loss`: string coercion, never fails (lines 83-84). -/
def getLoss (kvs : PyDict) : String :=
  match lookup "loss" kvs with
  | Option.none => DEFAULT_HYPERPARAMS.loss
  | Option.some v => pyStr v

/-- `seed`: `None` stays `None`, otherwise strict `int()` (lines 86-94). -/
def getSeedField (kvs : PyDict) : Except PyErr (Option Int) :=
  match lookup "seed" kvs with
  | Option.none => Except.ok DEFAULT_HYPERPARAMS.seed
  | Option.some PyVal.none => Except.ok Option.none
  | Option.some v =>
    match pyInt v with
    | Except.ok n => Except.ok (Option.some n)
    | Except.error _ => Except.error (PyErr.valueError "`hyperparams.seed` must be integer or null.")

/-- Lines 102-107: merge a user-supplied `optimizer` dict onto the default
optimizer; any non-dict value (or absence) leaves the default. -/
def mergedOptimizer (kvs : PyDict) : PyDict :=
  match lookup "optimizer" kvs with
  | Option.some (PyVal.dict okvs) => mergeDict DEFAULT_OPTIMIZER okvs
  | _ => DEFAULT_OPTIMIZER

/-- Tolerant float coercion of one optimizer key (lines 111-128): if the
key is present, replace its value by `float(value)`, silently falling back
to `fallback` when coercion fails; absent keys are untouched. -/
def coerceFloatAt (d : PyDict) (key : String) (fallback : Rat) : PyDict :=
  match lookup key d with
  | Option.none => d
  | Option.some v =>
    match pyFloat v with
    | Except.ok q => dictSet d key (PyVal.float q)
    | Except.error _ => dictSet d key (PyVal.float fallback)

/-- Lines 109-128: lower-case `type`, tolerantly coerce `lr`, then the
type-specific numeric fields (`momentum` for sgd; `beta1`/`beta2`/`eps`
for adam).  This never raises. -/
def normalizeOptimizer (d0 : PyDict) : PyDict :=
  let t := lowerStr (pyStr ((lookup "type" d0).getD (PyVal.str "sgd")))
  let d1 := dictSet d0 "type" (PyVal.str t)
  let d2 := coerceFloatAt d1 "lr" LR_DEFAULT
  if t = "sgd" then coerceFloatAt d2 "momentum" MOMENTUM_DEFAULT
  else if t = "adam" then
    coerceFloatAt (coerceFloatAt (coerceFloatAt d2 "beta1" BETA1_DEFAULT) "beta2" BETA2_DEFAULT) "eps" EPS_DEFAULT
  else d2

/-- Body of `validate_hyperparams` on a dict payload, in source order:
each strict field in the order its coercion (and so its error) occurs. -/
def hpFromDict (kvs : PyDict) : Except PyErr HyperparamSpec :=
  match getIntField kvs "epochs" "`hyperparams.epochs` must be an integer." DEFAULT_HYPERPARAMS.epochs with
  | Except.error e => Except.error e
  | Except.ok epochs =>
  match getIntField kvs "batch_size" "`hyperparams.batch_size` must be an integer." DEFAULT_HYPERPARAMS.batch_size with
  | Except.error e => Except.error e
  | Except.ok batch_size =>
  match getFloatField kvs "train_split" "`hyperparams.train_split` must be numeric." DEFAULT_HYPERPARAMS.train_split with
  | Except.error e => Except.error e
  | Except.ok train_split =>
  match getSeedField kvs with
  | Except.error e => Except.error e
  | Except.ok seed =>
  match getIntField kvs "max_samples" "`hyperparams.max_samples` must be an integer." DEFAULT_HYPERPARAMS.max_samples with
  | Except.error e => Except.error e
  | Except.ok max_samples =>
    Except.ok ⟨epochs, batch_size, normalizeOptimizer (mergedOptimizer kvs), getLoss kvs,
               seed, train_split, getShuffle kvs, max_samples⟩

/-- `validate_hyperparams` (validation.py lines 54-130): `None` becomes
the empty dict; any other non-dict raises. -/
def validate_hyperparams (payload : PyVal) : Except PyErr HyperparamSpec :=
  match payload with
  | PyVal.none => hpFromDict []
  | PyVal.dict kvs => hpFromDict kvs
  | _ => Except.error (PyErr.valueError "`hyperparams` must be an object.")

/-- Spec-side predicate: every strict top-level field present in the
payload coerces to its canonical type (`int` for epochs / batch_size /
max_samples, `float` for train_split, `int` or null for seed). -/
def intFieldOkB (kvs : PyDict) (key : String) : Bool :=
  match lookup key kvs with
  | Option.none => true
  | Option.some v => exceptIsOk (pyInt v)

def floatFieldOkB (kvs : PyDict) (key : String) : Bool :=
  match lookup key kvs with
  | Option.none => true
  | Option.some v => exceptIsOk (pyFloat v)

def seedFieldOkB (kvs : PyDict) : Bool :=
  match lookup "seed" kvs with
  | Option.none => true
  | Option.some PyVal.none => true
  | Option.some v => exceptIsOk (pyInt v)

def strictFieldsOk (kvs : PyDict) : Bool :=
  intFieldOkB kvs "epochs" && intFieldOkB kvs "batch_size" && floatFieldOkB kvs "train_split" &&
    seedFieldOkB kvs && intFieldOkB kvs "max_samples"

/-! ## Data preparation (`model_service.py`) -/

/-- Total synthetic sample count (model_service.py lines 38-39):
`max(max_samples or DEFAULT_HYPERPARAMS["max_samples"], batch_size * 2)`
then floored to at least 2.  `max_samples` is `Option Int`: `none` models
Python `None`; an integer 0 is falsy, so both fall back to the default. -/
def totalSamplesOf (batch_size : Int) (max_samples : Option Int) : Int :=
  let ms := match max_samples with
            | Option.some m => if m = 0 then DEFAULT_HYPERPARAMS.max_samples else m
            | Option.none => DEFAULT_HYPERPARAMS.max_samples
  max 2 (max ms (batch_size * 2))

/-- Fuel-driven `⌊log2 n⌋` on naturals (0 for `n ≤ 1`); structural so the
kernel can evaluate it. -/
def natLog2F : Nat → Nat → Nat
  | 0, _ => 0
  | fuel + 1, n => if n ≤ 1 then 0 else 1 + natLog2F fuel (n / 2)

def natLog2 (n : Nat) : Nat := natLog2F n n

/-- `⌊log2 (n / d)⌋` for `n, d ≥ 1`, by integer comparisons only. -/
def floorLog2Pair (n d : Nat) : Int :=
  let e0 : Int := (natLog2 n : Int) - (natLog2 d : Int)
  let le : Bool :=
    if 0 ≤ e0 then decide (d * 2 ^ e0.toNat ≤ n) else decide (d ≤ n * 2 ^ (-e0).toNat)
  if le then e0 else e0 - 1

/-- Round `n / d` (`n ≥ 0`, `d ≥ 1`) to the nearest integer, ties to
even. -/
def roundHalfEvenPair (n d : Nat) : Nat :=
  let q := n / d
  let r := n % d
  if 2 * r < d then q
  else if d < 2 * r then q + 1
  else if q % 2 = 0 then q else q + 1

/-- Round the nonnegative rational `n / d` to the nearest IEEE-754
binary64 value (round to nearest, ties to even), returned as a mantissa
and a power-of-two scale: the value is `m * 2^scale`.  The 53-bit
mantissa and the subnormal clamp at `2^-1074` follow the format; values
at or beyond `2^1024` (which would be infinities) are kept finite — the
validators never produce them. -/
def binary64Round (n d : Nat) : Nat × Int :=
  if n = 0 then (0, 0)
  else
    let e := floorLog2Pair n d
    let scale : Int := max (e - 52) (-1074)
    if scale ≤ 0 then (roundHalfEvenPair (n * 2 ^ (-scale).toNat) d, scale)
    else (roundHalfEvenPair n (d * 2 ^ scale.toNat), scale)

/-- `int(float(total) * train_split)` with binary64 semantics, as the
Python source computes it at model_service.py line 42: `train_split` is
rounded to a double (it is one in the program — coming from `float()`
coercion or a JSON literal; rounding is the identity on doubles),
`total` is converted to a double, their product is rounded once, and the
result is truncated toward zero.  Implemented on numerators/denominators
with integer arithmetic only, so concrete inputs evaluate in the
kernel.  (Checked against CPython doubles on randomized inputs.) -/
def truncDoubleProd (total : Int) (split : Rat) : Int :=
  if total = 0 ∨ split.num = 0 then 0
  else
    let neg : Bool := decide (total < 0) != decide (split.num < 0)
    let pt := binary64Round total.natAbs 1
    let ps := binary64Round split.num.natAbs split.den
    let es := pt.2 + ps.2
    let pp :=
      if 0 ≤ es then binary64Round (pt.1 * ps.1 * 2 ^ es.toNat) 1
      else binary64Round (pt.1 * ps.1) (2 ^ (-es).toNat)
    let mag : Int :=
      if 0 ≤ pp.2 then ((pp.1 * 2 ^ pp.2.toNat : Nat) : Int)
      else ((pp.1 / 2 ^ (-pp.2).toNat : Nat) : Int)
    if neg then -mag else mag

/-- Train split size (lines 42-44): `max(1, int(len(dataset) *
train_split))`, then clamped to `total - 1` when it reaches the whole
set.  The multiplication is double multiplication and `int()` truncates
toward zero. -/
def trainLenOf (total : Int) (train_split : Rat) : Int :=
  let t := max 1 (truncDoubleProd total train_split)
  if total ≤ t then total - 1 else t

/-- Validation split size (line 45): `max(1, total - train_len)`. -/
def valLenOf (total train_len : Int) : Int := max 1 (total - train_len)

/-- The spec's formula for the total sample count, from its words:
"max(max_samples or the default max_samples, batch_size * 2) floored to at
least 2". -/
def specTotalSamples (batch_size : Int) (max_samples : Option Int) : Int :=
  let ms := match max_samples with
            | Option.some m => if m = 0 then DEFAULT_HYPERPARAMS.max_samples else m
            | Option.none => DEFAULT_HYPERPARAMS.max_samples
  max 2 (max ms (batch_size * 2))

/-- The spec's formula for the train split size, from its words:
"max(1, floor(total * train_split)) clamped to total - 1 when it would
consume the whole set" — stated with mathematical floor, where the source
truncates toward zero. -/
def specTrainLen (total : Int) (train_split : Rat) : Int :=
  let t := max 1 ⌊(total : Rat) * train_split⌋
  if total ≤ t then total - 1 else t

/-- The amended formula for the train split size: `max(1, int(fl(fl(total)
* fl(train_split))))` — the binary64 rounding of the product, truncated
toward zero — with the same whole-set clamp. -/
def specTrainLenFloat (total : Int) (train_split : Rat) : Int :=
  let t := max 1 (truncDoubleProd total train_split)
  if total ≤ t then total - 1 else t

/-- The user-supplied split ratio 0.29 (exactly 29/100), whose nearest
double is strictly below it. -/
def splitPoint29 : Rat := ⟨29, 100, by decide, by decide⟩

/-- Fuel-driven chunking of a list into batches of size `b` (batch `b ≤ 1`
degenerates to singletons, as the fuel recursion steps by `max 1 b`);
models one pass of a `DataLoader` with `batch_size = b`. -/
def chunksOfAux {α : Type} : Nat → Nat → List α → List (List α)
  | 0, _, _ => []
  | _ + 1, _, [] => []
  | fuel + 1, b, x :: xs => (x :: xs.take (b - 1)) :: chunksOfAux fuel b (xs.drop (b - 1))

def chunksOf {α : Type} (b : Nat) (l : List α) : List (List α) :=
  chunksOfAux l.length b l

/-- Interface of `torch.Generator`-driven randomness, as used by
`synthetic_dataset` / `random_split` / `DataLoader`.  A generator is a
value of the state type `G`; each sampling function is a pure function of
the state returning the sample and the advanced state (torch's documented
contract: a given seed determines the stream).  `manualSeed` models
`torch.Generator().manual_seed(s)`; the state of a *fresh, unseeded*
generator is passed separately wherever `torch.Generator()` is created, so
that dependence on ambient entropy is explicit. -/
structure TorchRNG (G : Type) where
  manualSeed : Int → G
  rand2d : Int → Int → G → List (List Rat) × G
  randint1d : Int → Int → Int → G → List Int × G
  randperm : G → Int → List Int × G

/-- `synthetic_dataset` (model_service.py lines 27-34): features
`torch.rand(size, input_size)` zipped with labels
`torch.randint(0, 10, (size,))`, both drawn from one generator that is
`manual_seed`ed exactly when `seed` is not `None`.  `fresh` is the state
of the unseeded `torch.Generator()`. -/
def synthetic_dataset {G : Type} (R : TorchRNG G) (fresh : G)
    (size input_size : Int) (seed : Option Int) : List (List Rat × Int) :=
  let g0 := match seed with
            | Option.some s => R.manualSeed s
            | Option.none => fresh
  let p1 := R.rand2d size input_size g0
  let p2 := R.randint1d 0 10 size p1.2
  p1.1.zip p2.1

/-- `prepare_dataloaders` (model_service.py lines 37-57).  `random_split`
draws `randperm(total)` and slices it into the train/val index blocks; the
train loader shuffles (one epoch modelled) with the same generator when
`shuffle` is set, the val loader never shuffles.  `fresh1` and `fresh2`
are the states of the two unseeded `torch.Generator()` calls (inside
`synthetic_dataset` and at line 47); both are overridden by `manual_seed`
whenever `seed` is not `None`. -/
def prepare_dataloaders {G : Type} (R : TorchRNG G) (fresh1 fresh2 : G)
    (batch_size : Int) (train_split : Rat) (shuffle : Bool)
    (max_samples : Option Int) (seed : Option Int) :
    List (List (List Rat × Int)) × List (List (List Rat × Int)) :=
  let total := totalSamplesOf batch_size max_samples
  let dataset := synthetic_dataset R fresh1 total MNIST_INPUT_SIZE seed
  let train_len := trainLenOf total train_split
  let val_len := valLenOf total train_len
  let g0 := match seed with
            | Option.some s => R.manualSeed s
            | Option.none => fresh2
  let pp := R.randperm g0 total
  let train_ds := (pp.1.take train_len.toNat).map (fun i => dataset.getD i.toNat ([], 0))
  let val_ds := ((pp.1.drop train_len.toNat).take val_len.toNat).map (fun i => dataset.getD i.toNat ([], 0))
  let train_seq :=
    if shuffle then ((R.randperm pp.2 train_len).1).map (fun i => train_ds.getD i.toNat ([], 0))
    else train_ds
  (chunksOf batch_size.toNat train_seq, chunksOf batch_size.toNat val_ds)

/-! ## Helper lemmas -/

/-- The source's per-layer step agrees with the spec-side step: defaulting
`out` to the raw `in` value and then coercing both is the same as
defaulting `out` to the already-resolved integer `in`. -/
theorem sanitizeLayer_eq_spec (prev : Int) (layer : PyVal) :
    sanitizeLayer prev layer = specLayerStep prev layer := by
  cases layer with
  | dict kvs =>
    simp only [sanitizeLayer, specLayerStep]
    by_cases ht : lowerStr (pyStr ((lookup "type" kvs).getD (PyVal.str "linear"))) = "linear"
    · simp only [ht, if_true]
      cases hin : lookup "in" kvs with
      | none =>
        cases hout : lookup "out" kvs with
        | none => simp [hin, hout, pyInt]
        | some vo => simp [hin, hout, pyInt]
      | some vi =>
        cases hpv : pyInt vi with
        | error e => simp [hin, hpv]
        | ok n =>
          cases hout : lookup "out" kvs with
          | none => simp [hin, hout, hpv]
          | some vo => simp [hin, hout, hpv]
    · simp only [ht, if_false]
  | none => rfl
  | bool b => rfl
  | int n => rfl
  | float q => rfl
  | str s => rfl
  | list xs => rfl

/-- The source's layer loop agrees with the spec-side inference pass. -/
theorem sanitizeLayers_eq_specPass (prev : Int) (ls : List PyVal) :
    sanitizeLayers prev ls = specPass prev ls := by
  induction ls generalizing prev with
  | nil => rfl
  | cons l ls ih =>
    simp only [sanitizeLayers, specPass, sanitizeLayer_eq_spec]
    cases specLayerStep prev l with
    | error e => rfl
    | ok p => simp only [ih]

/-- The layer loop appends exactly one sanitized layer per input entry. -/
theorem sanitizeLayers_length (ls : List PyVal) : ∀ (prev : Int) (out : List Layer),
    sanitizeLayers prev ls = Except.ok out → out.length = ls.length := by
  induction ls with
  | nil => intro prev out h; simp only [sanitizeLayers] at h; cases h; rfl
  | cons l ls ih =>
    intro prev out h
    simp only [sanitizeLayers] at h
    cases hl : sanitizeLayer prev l with
    | error e => rw [hl] at h; cases h
    | ok p =>
      obtain ⟨lay, prev2⟩ := p
      rw [hl] at h
      dsimp only at h
      cases hr : sanitizeLayers prev2 ls with
      | error e => rw [hr] at h; cases h
      | ok rest =>
        rw [hr] at h
        cases h
        simp [ih prev2 rest hr]

/-- Every error of the per-layer step is a `ValueError`. -/
theorem sanitizeLayer_error_valueError (prev : Int) (l : PyVal) (e : PyErr)
    (h : sanitizeLayer prev l = Except.error e) : ∃ msg, e = PyErr.valueError msg := by
  cases l with
  | dict kvs =>
    simp only [sanitizeLayer] at h
    by_cases ht : lowerStr (pyStr ((lookup "type" kvs).getD (PyVal.str "linear"))) = "linear"
    · simp only [ht, if_true] at h
      cases hin : pyInt ((lookup "in" kvs).getD (PyVal.int prev)) with
      | error e2 => rw [hin] at h; cases h; exact ⟨_, rfl⟩
      | ok i =>
        rw [hin] at h
        cases hout : pyInt ((lookup "out" kvs).getD ((lookup "in" kvs).getD (PyVal.int prev))) with
        | error e2 => rw [hout] at h; cases h; exact ⟨_, rfl⟩
        | ok o => rw [hout] at h; cases h
    · simp only [ht, if_false] at h; cases h
  | none => cases h; exact ⟨_, rfl⟩
  | bool b => cases h; exact ⟨_, rfl⟩
  | int n => cases h; exact ⟨_, rfl⟩
  | float q => cases h; exact ⟨_, rfl⟩
  | str s => cases h; exact ⟨_, rfl⟩
  | list xs => cases h; exact ⟨_, rfl⟩

/-- Every error of the layer loop is a `ValueError`. -/
theorem sanitizeLayers_error_valueError (ls : List PyVal) : ∀ (prev : Int) (e : PyErr),
    sanitizeLayers prev ls = Except.error e → ∃ msg, e = PyErr.valueError msg := by
  induction ls with
  | nil => intro prev e h; cases h
  | cons l ls ih =>
    intro prev e h
    simp only [sanitizeLayers] at h
    cases hl : sanitizeLayer prev l with
    | error e2 =>
      rw [hl] at h; cases h
      exact sanitizeLayer_error_valueError prev l _ hl
    | ok p =>
      obtain ⟨lay, prev2⟩ := p
      rw [hl] at h
      dsimp only at h
      cases hr : sanitizeLayers prev2 ls with
      | error e2 => rw [hr] at h; cases h; exact ih prev2 _ hr
      | ok rest => rw [hr] at h; cases h

/-- Iterating a truthy value, when it succeeds, yields at least one
element. -/
theorem pyIter_truthy_ne_nil (v : PyVal) (items : List PyVal)
    (htr : pyTruthy v = true) (hit : pyIter v = Except.ok items) : items ≠ [] := by
  cases v with
  | list xs =>
    cases hit
    cases items with
    | nil => exact absurd htr (by decide)
    | cons x xs => simp
  | str s =>
    cases hit
    cases s with
    | mk cs =>
      cases cs with
      | nil => exact absurd htr (by decide)
      | cons c cs => simp
  | dict kvs =>
    cases hit
    cases kvs with
    | nil => exact absurd htr (by decide)
    | cons kv rest => simp
  | none => cases hit
  | bool b => cases hit
  | int n => cases hit
  | float q => cases hit

/-- Removing one key leaves lookups of every other key unchanged. -/
theorem lookup_eraseKey (k k2 : String) (kvs : PyDict) (hne : k ≠ k2) :
    lookup k (eraseKey k2 kvs) = lookup k kvs := by
  induction kvs with
  | nil => rfl
  | cons kv rest ih =>
    obtain ⟨k1, v⟩ := kv
    by_cases h12 : k1 = k2
    · subst h12
      have hk : ¬(k1 = k) := fun h => hne h.symm
      simp [eraseKey, List.filter_cons, lookup, hk]
      simpa [eraseKey] using ih
    · by_cases h1k : k1 = k
      · subst h1k
        simp [eraseKey, List.filter_cons, lookup, h12]
      · simp [eraseKey, List.filter_cons, lookup, h12, h1k]
        simpa [eraseKey] using ih

/-- Removing a key makes its own lookup fail. -/
theorem lookup_eraseKey_self (k : String) (kvs : PyDict) :
    lookup k (eraseKey k kvs) = Option.none := by
  induction kvs with
  | nil => rfl
  | cons kv rest ih =>
    obtain ⟨k1, v⟩ := kv
    by_cases h1k : k1 = k
    · subst h1k
      simpa [eraseKey, List.filter_cons] using ih
    · simp [eraseKey, List.filter_cons, lookup, h1k]
      simpa [eraseKey] using ih

/-- A strict int field whose coercion check passes produces a value. -/
theorem getIntField_ok (kvs : PyDict) (key msg : String) (dflt : Int)
    (h : intFieldOkB kvs key = true) : ∃ n, getIntField kvs key msg dflt = Except.ok n := by
  unfold intFieldOkB at h
  cases hl : lookup key kvs with
  | none => exact ⟨dflt, by simp [getIntField, hl]⟩
  | some v =>
    rw [hl] at h
    dsimp only at h
    cases hp : pyInt v with
    | ok n => exact ⟨n, by simp [getIntField, hl, hp]⟩
    | error e => rw [hp] at h; simp [exceptIsOk] at h

/-- A strict float field whose coercion check passes produces a value. -/
theorem getFloatField_ok (kvs : PyDict) (key msg : String) (dflt : Rat)
    (h : floatFieldOkB kvs key = true) : ∃ q, getFloatField kvs key msg dflt = Except.ok q := by
  unfold floatFieldOkB at h
  cases hl : lookup key kvs with
  | none => exact ⟨dflt, by simp [getFloatField, hl]⟩
  | some v =>
    rw [hl] at h
    dsimp only at h
    cases hp : pyFloat v with
    | ok q => exact ⟨q, by simp [getFloatField, hl, hp]⟩
    | error e => rw [hp] at h; simp [exceptIsOk] at h

/-- A seed field whose check passes produces a value. -/
theorem getSeedField_ok (kvs : PyDict)
    (h : seedFieldOkB kvs = true) : ∃ o, getSeedField kvs = Except.ok o := by
  unfold seedFieldOkB at h
  cases hl : lookup "seed" kvs with
  | none => exact ⟨DEFAULT_HYPERPARAMS.seed, by simp [getSeedField, hl]⟩
  | some v =>
    rw [hl] at h
    cases v with
    | none => exact ⟨Option.none, by simp [getSeedField, hl]⟩
    | int n => exact ⟨Option.some n, by simp [getSeedField, hl, pyInt]⟩
    | bool b => exact ⟨Option.some (if b then 1 else 0), by simp [getSeedField, hl, pyInt]⟩
    | float q => exact ⟨Option.some (ratTrunc q), by simp [getSeedField, hl, pyInt]⟩
    | str s =>
      cases hp : pyInt (PyVal.str s) with
      | ok n => exact ⟨Option.some n, by simp [getSeedField, hl, hp]⟩
      | error e => simp [hp, exceptIsOk] at h
    | list xs => simp [pyInt, exceptIsOk] at h
    | dict okvs => simp [pyInt, exceptIsOk] at h

/-- When every strict top-level field coerces, `hpFromDict` succeeds, and
its optimizer is the normalized merge. -/
theorem hpFromDict_ok (kvs : PyDict) (h : strictFieldsOk kvs = true) :
    ∃ r, hpFromDict kvs = Except.ok r ∧ r.optimizer = normalizeOptimizer (mergedOptimizer kvs) := by
  unfold strictFieldsOk at h
  simp only [Bool.and_eq_true] at h
  obtain ⟨⟨⟨⟨he, hb⟩, ht⟩, hs⟩, hm⟩ := h
  obtain ⟨ep, hep⟩ := getIntField_ok kvs "epochs" "`hyperparams.epochs` must be an integer." DEFAULT_HYPERPARAMS.epochs he
  obtain ⟨bs, hbs⟩ := getIntField_ok kvs "batch_size" "`hyperparams.batch_size` must be an integer." DEFAULT_HYPERPARAMS.batch_size hb
  obtain ⟨ts, hts⟩ := getFloatField_ok kvs "train_split" "`hyperparams.train_split` must be numeric." DEFAULT_HYPERPARAMS.train_split ht
  obtain ⟨sd, hsd⟩ := getSeedField_ok kvs hs
  obtain ⟨ms, hms⟩ := getIntField_ok kvs "max_samples" "`hyperparams.max_samples` must be an integer." DEFAULT_HYPERPARAMS.max_samples hm
  refine ⟨⟨ep, bs, normalizeOptimizer (mergedOptimizer kvs), getLoss kvs, sd, ts, getShuffle kvs, ms⟩, ?_, rfl⟩
  unfold hpFromDict
  rw [hep, hbs, hts, hsd, hms]

/-- A successful `hpFromDict` result carries the normalized merged
optimizer. -/
theorem hpFromDict_optimizer (kvs : PyDict) (r : HyperparamSpec)
    (h : hpFromDict kvs = Except.ok r) :
    r.optimizer = normalizeOptimizer (mergedOptimizer kvs) := by
  unfold hpFromDict at h
  cases h1 : getIntField kvs "epochs" "`hyperparams.epochs` must be an integer." DEFAULT_HYPERPARAMS.epochs with
  | error e => rw [h1] at h; cases h
  | ok ep =>
    rw [h1] at h; dsimp only at h
    cases h2 : getIntField kvs "batch_size" "`hyperparams.batch_size` must be an integer." DEFAULT_HYPERPARAMS.batch_size with
    | error e => rw [h2] at h; cases h
    | ok bs =>
      rw [h2] at h; dsimp only at h
      cases h3 : getFloatField kvs "train_split" "`hyperparams.train_split` must be numeric." DEFAULT_HYPERPARAMS.train_split with
      | error e => rw [h3] at h; cases h
      | ok ts =>
        rw [h3] at h; dsimp only at h
        cases h4 : getSeedField kvs with
        | error e => rw [h4] at h; cases h
        | ok sd =>
          rw [h4] at h; dsimp only at h
          cases h5 : getIntField kvs "max_samples" "`hyperparams.max_samples` must be an integer." DEFAULT_HYPERPARAMS.max_samples with
          | error e => rw [h5] at h; cases h
          | ok ms =>
            rw [h5] at h; dsimp only at h
            cases h
            rfl

/-- A present but non-dict `optimizer` value leaves the default optimizer
in place. -/
theorem mergedOptimizer_nondict (kvs : PyDict) (v : PyVal)
    (hv : lookup "optimizer" kvs = Option.some v) (hnd : isDictV v = false) :
    mergedOptimizer kvs = DEFAULT_OPTIMIZER := by
  unfold mergedOptimizer
  rw [hv]
  cases v with
  | dict okvs => simp [isDictV] at hnd
  | none => rfl
  | bool b => rfl
  | int n => rfl
  | float q => rfl
  | str s => rfl
  | list xs => rfl

/-- Normalizing the default optimizer record is the identity. -/
theorem normalizeOptimizer_default : normalizeOptimizer DEFAULT_OPTIMIZER = DEFAULT_OPTIMIZER := rfl

/-- With a present but non-dict `optimizer` value, `hpFromDict` behaves
exactly as if the key were absent. -/
theorem hpFromDict_ignores_bad_optimizer (kvs : PyDict) (v : PyVal)
    (hv : lookup "optimizer" kvs = Option.some v) (hnd : isDictV v = false) :
    hpFromDict kvs = hpFromDict (eraseKey "optimizer" kvs) := by
  have hko : ∀ key : String, key ≠ "optimizer" →
      lookup key (eraseKey "optimizer" kvs) = lookup key kvs :=
    fun key hk => lookup_eraseKey key "optimizer" kvs hk
  have h1 : mergedOptimizer kvs = DEFAULT_OPTIMIZER := mergedOptimizer_nondict kvs v hv hnd
  have h2 : mergedOptimizer (eraseKey "optimizer" kvs) = DEFAULT_OPTIMIZER := by
    unfold mergedOptimizer; rw [lookup_eraseKey_self]
  unfold hpFromDict getIntField getFloatField getSeedField getShuffle getLoss
  rw [hko "epochs" (by decide), hko "batch_size" (by decide), hko "train_split" (by decide),
      hko "seed" (by decide), hko "max_samples" (by decide), hko "shuffle" (by decide),
      hko "loss" (by decide), h1, h2]

theorem totalSamplesOf_ge_two (bs : Int) (ms : Option Int) : 2 ≤ totalSamplesOf bs ms := by
  simp only [totalSamplesOf]
  exact le_max_left _ _

theorem trainLenOf_bounds (total : Int) (split : Rat) (htot : 2 ≤ total) :
    1 ≤ trainLenOf total split ∧ trainLenOf total split ≤ total - 1 := by
  unfold trainLenOf
  by_cases hc : total ≤ max 1 (truncDoubleProd total split)
  · rw [if_pos hc]
    exact ⟨by omega, by omega⟩
  · rw [if_neg hc]
    push_neg at hc
    have h1 : 1 ≤ max 1 (truncDoubleProd total split) := le_max_left 1 _
    exact ⟨h1, by omega⟩

/-- Non-iterable values make `pyIter` raise `TypeError`. -/
theorem pyIter_notIterable (v : PyVal) (h : notIterable v = true) :
    pyIter v = Except.error (PyErr.typeError "object is not iterable") := by
  cases v with
  | none => rfl
  | bool b => rfl
  | int n => rfl
  | float q => rfl
  | str s => simp [notIterable] at h
  | list xs => simp [notIterable] at h
  | dict kvs => simp [notIterable] at h

/-- Iterable values make `pyIter` succeed. -/
theorem pyIter_iterable_ok (v : PyVal) (h : notIterable v = false) :
    ∃ items, pyIter v = Except.ok items := by
  cases v with
  | str s => exact ⟨_, rfl⟩
  | list xs => exact ⟨_, rfl⟩
  | dict kvs => exact ⟨_, rfl⟩
  | none => simp [notIterable] at h
  | bool b => simp [notIterable] at h
  | int n => simp [notIterable] at h
  | float q => simp [notIterable] at h

/-! ## Claim theorems -/

/-- C1: for architectures accepted by `validate_architecture`, linear
dimensions are inferred by the left-to-right pass carrying `prev_out`
(initialized to `input_size` in `validate_architecture`): a linear layer
takes its supplied `in` else `prev_out`, its supplied `out` else its
resolved `in`, and advances `prev_out` to its `out`; other layers are
appended lower-cased and leave `prev_out` unchanged.  The source loop
equals the spec-side pass `specPass`, and the spec's worked example
evaluates to the stated layer list. -/
theorem c1_linear_dimension_inference :
    (∀ (prev : Int) (ls : List PyVal), sanitizeLayers prev ls = specPass prev ls)
    ∧ validate_architecture c1ExamplePayload =
        Except.ok ⟨784, [Layer.linear 784 128, Layer.other "relu",
                         Layer.linear 128 10, Layer.other "softmax"]⟩ :=
  ⟨sanitizeLayers_eq_specPass, rfl⟩

/-- C2: the strict/tolerant asymmetry of `validate_hyperparams`: an
optimizer `{"type": "adam", "lr": "not-a-number"}` does not raise and the
resulting `lr` is the documented default (0.1), while a top-level
`{"epochs": "not-a-number"}` raises `InvalidHyperparams` naming the
`epochs` field. -/
theorem c2_optimizer_tolerant_top_level_strict :
    validate_hyperparams (PyVal.dict
        [("optimizer", PyVal.dict [("type", PyVal.str "adam"), ("lr", PyVal.str "not-a-number")])]) =
      Except.ok ⟨5, 64,
        [("type", PyVal.str "adam"), ("lr", PyVal.float LR_DEFAULT), ("momentum", PyVal.float MOMENTUM_DEFAULT)],
        "cross_entropy", Option.none, TRAIN_SPLIT_DEFAULT, true, 4096⟩
    ∧ validate_hyperparams (PyVal.dict [("epochs", PyVal.str "not-a-number")]) =
        Except.error (PyErr.valueError "`hyperparams.epochs` must be an integer.") :=
  ⟨rfl, rfl⟩

/-- C7: `validate_hyperparams(None)` and `validate_hyperparams({})` both
return exactly the Defaults record (every field, optimizer sub-record
included, unchanged by normalization). -/
theorem c7_null_and_empty_give_defaults :
    validate_hyperparams PyVal.none = Except.ok DEFAULT_HYPERPARAMS
    ∧ validate_hyperparams (PyVal.dict []) = Except.ok DEFAULT_HYPERPARAMS :=
  ⟨rfl, rfl⟩

/-- C8: `prepare_dataloaders` is deterministic in its seed: with a
non-null seed, the result does not depend on the ambient entropy of the
fresh `torch.Generator()` states (`f1`/`f2` vs `f3`/`f4`), because both
generators are `manual_seed`ed; hence two calls with identical arguments
produce identical synthesized data, split boundaries and batch
contents. -/
theorem c8_seed_determinism :
    ∀ (G : Type) (R : TorchRNG G) (f1 f2 f3 f4 : G) (bs : Int) (split : Rat)
      (sh : Bool) (ms : Option Int) (s : Int),
      prepare_dataloaders R f1 f2 bs split sh ms (Option.some s) =
        prepare_dataloaders R f3 f4 bs split sh ms (Option.some s)
      ∧ synthetic_dataset R f1 (totalSamplesOf bs ms) MNIST_INPUT_SIZE (Option.some s) =
          synthetic_dataset R f3 (totalSamplesOf bs ms) MNIST_INPUT_SIZE (Option.some s) :=
  fun _ _ _ _ _ _ _ _ _ _ _ => ⟨rfl, rfl⟩

/-- C3 counterexample: a structured-mapping argument can still fail —
`{"epochs": []}` is a mapping, yet `validate_hyperparams` raises because
the strict top-level `epochs` coercion fails; so "no other condition makes
the call fail" is false as stated. -/
theorem c3_mapping_argument_can_fail :
    validate_hyperparams (PyVal.dict [("epochs", PyVal.list [])]) =
      Except.error (PyErr.valueError "`hyperparams.epochs` must be an integer.") := rfl

/-- A failing strict int field raises exactly its field-named
`ValueError`. -/
theorem getIntField_error_msg (kvs : PyDict) (key msg : String) (dflt : Int) (e : PyErr)
    (h : getIntField kvs key msg dflt = Except.error e) : e = PyErr.valueError msg := by
  unfold getIntField at h
  cases hl : lookup key kvs with
  | none => rw [hl] at h; cases h
  | some v =>
    rw [hl] at h
    dsimp only at h
    cases hp : pyInt v with
    | ok n => rw [hp] at h; cases h
    | error e2 => rw [hp] at h; cases h; rfl

/-- A failing strict float field raises exactly its field-named
`ValueError`. -/
theorem getFloatField_error_msg (kvs : PyDict) (key msg : String) (dflt : Rat) (e : PyErr)
    (h : getFloatField kvs key msg dflt = Except.error e) : e = PyErr.valueError msg := by
  unfold getFloatField at h
  cases hl : lookup key kvs with
  | none => rw [hl] at h; cases h
  | some v =>
    rw [hl] at h
    dsimp only at h
    cases hp : pyFloat v with
    | ok q => rw [hp] at h; cases h
    | error e2 => rw [hp] at h; cases h; rfl

/-- A failing seed field raises exactly the seed `ValueError`. -/
theorem getSeedField_error_msg (kvs : PyDict) (e : PyErr)
    (h : getSeedField kvs = Except.error e) :
    e = PyErr.valueError "`hyperparams.seed` must be integer or null." := by
  unfold getSeedField at h
  cases hl : lookup "seed" kvs with
  | none => rw [hl] at h; cases h
  | some v =>
    rw [hl] at h
    cases v with
    | none => cases h
    | int n => cases h
    | bool b => cases h
    | float q => cases h
    | str s =>
      dsimp only at h
      cases hp : pyInt (PyVal.str s) with
      | ok n => rw [hp] at h; cases h
      | error e2 => rw [hp] at h; cases h; rfl
    | list xs => cases h; rfl
    | dict okvs => cases h; rfl

/-- A succeeding strict int field implies its coercion check passes. -/
theorem getIntField_ok_inv (kvs : PyDict) (key msg : String) (dflt n : Int)
    (h : getIntField kvs key msg dflt = Except.ok n) : intFieldOkB kvs key = true := by
  unfold getIntField at h
  unfold intFieldOkB
  cases hl : lookup key kvs with
  | none => rfl
  | some v =>
    rw [hl] at h
    dsimp only at h
    cases hp : pyInt v with
    | ok m => simp [hp, exceptIsOk]
    | error e => rw [hp] at h; cases h

/-- A succeeding strict float field implies its coercion check passes. -/
theorem getFloatField_ok_inv (kvs : PyDict) (key msg : String) (dflt : Rat) (q : Rat)
    (h : getFloatField kvs key msg dflt = Except.ok q) : floatFieldOkB kvs key = true := by
  unfold getFloatField at h
  unfold floatFieldOkB
  cases hl : lookup key kvs with
  | none => rfl
  | some v =>
    rw [hl] at h
    dsimp only at h
    cases hp : pyFloat v with
    | ok m => simp [hp, exceptIsOk]
    | error e => rw [hp] at h; cases h

/-- A succeeding seed field implies its check passes. -/
theorem getSeedField_ok_inv (kvs : PyDict) (o : Option Int)
    (h : getSeedField kvs = Except.ok o) : seedFieldOkB kvs = true := by
  unfold getSeedField at h
  unfold seedFieldOkB
  cases hl : lookup "seed" kvs with
  | none => rfl
  | some v =>
    rw [hl] at h
    cases v with
    | none => rfl
    | int n => simp [pyInt, exceptIsOk]
    | bool b => simp [pyInt, exceptIsOk]
    | float q => simp [pyInt, exceptIsOk]
    | str s =>
      dsimp only at h
      cases hp : pyInt (PyVal.str s) with
      | ok n => simp [hp, exceptIsOk]
      | error e => rw [hp] at h; cases h
    | list xs => cases h
    | dict okvs => cases h

/-- C3 (amended): `validate_hyperparams` raises `InvalidHyperparams` when
its argument is non-null and not a structured mapping, and additionally
when a strict top-level field (`epochs`, `batch_size`, `train_split`,
`seed`, `max_samples`) fails coercion; a null argument, and any mapping
whose strict top-level fields all coerce, never fails — in particular no
optimizer condition and no `shuffle`/`loss` value can make the call
fail. -/
theorem c3_amended_failure_conditions :
    (∀ v : PyVal, isDictV v = false → v ≠ PyVal.none →
        validate_hyperparams v = Except.error (PyErr.valueError "`hyperparams` must be an object."))
    ∧ (∀ kvs : PyDict, strictFieldsOk kvs = false →
        ∃ msg, validate_hyperparams (PyVal.dict kvs) = Except.error (PyErr.valueError msg))
    ∧ (∀ kvs : PyDict, strictFieldsOk kvs = true →
        ∃ r, validate_hyperparams (PyVal.dict kvs) = Except.ok r)
    ∧ validate_hyperparams PyVal.none = Except.ok DEFAULT_HYPERPARAMS := by
  refine ⟨?_, ?_, ?_, rfl⟩
  · intro v hd hn
    cases v with
    | none => exact absurd rfl hn
    | dict kvs => simp [isDictV] at hd
    | bool b => rfl
    | int n => rfl
    | float q => rfl
    | str s => rfl
    | list xs => rfl
  · intro kvs h
    cases h1 : getIntField kvs "epochs" "`hyperparams.epochs` must be an integer." DEFAULT_HYPERPARAMS.epochs with
    | error e =>
      refine ⟨"`hyperparams.epochs` must be an integer.", ?_⟩
      have he := getIntField_error_msg _ _ _ _ _ h1
      show hpFromDict kvs = _
      unfold hpFromDict
      rw [h1, he]
    | ok ep =>
    cases h2 : getIntField kvs "batch_size" "`hyperparams.batch_size` must be an integer." DEFAULT_HYPERPARAMS.batch_size with
    | error e =>
      refine ⟨"`hyperparams.batch_size` must be an integer.", ?_⟩
      have he := getIntField_error_msg _ _ _ _ _ h2
      show hpFromDict kvs = _
      unfold hpFromDict
      rw [h1]
      dsimp only
      rw [h2, he]
    | ok bs =>
    cases h3 : getFloatField kvs "train_split" "`hyperparams.train_split` must be numeric." DEFAULT_HYPERPARAMS.train_split with
    | error e =>
      refine ⟨"`hyperparams.train_split` must be numeric.", ?_⟩
      have he := getFloatField_error_msg _ _ _ _ _ h3
      show hpFromDict kvs = _
      unfold hpFromDict
      rw [h1]
      dsimp only
      rw [h2]
      dsimp only
      rw [h3, he]
    | ok ts =>
    cases h4 : getSeedField kvs with
    | error e =>
      refine ⟨"`hyperparams.seed` must be integer or null.", ?_⟩
      have he := getSeedField_error_msg _ _ h4
      show hpFromDict kvs = _
      unfold hpFromDict
      rw [h1]
      dsimp only
      rw [h2]
      dsimp only
      rw [h3]
      dsimp only
      rw [h4, he]
    | ok sd =>
    cases h5 : getIntField kvs "max_samples" "`hyperparams.max_samples` must be an integer." DEFAULT_HYPERPARAMS.max_samples with
    | error e =>
      refine ⟨"`hyperparams.max_samples` must be an integer.", ?_⟩
      have he := getIntField_error_msg _ _ _ _ _ h5
      show hpFromDict kvs = _
      unfold hpFromDict
      rw [h1]
      dsimp only
      rw [h2]
      dsimp only
      rw [h3]
      dsimp only
      rw [h4]
      dsimp only
      rw [h5, he]
    | ok ms =>
      exfalso
      have hok : strictFieldsOk kvs = true := by
        unfold strictFieldsOk
        rw [getIntField_ok_inv _ _ _ _ _ h1, getIntField_ok_inv _ _ _ _ _ h2,
            getFloatField_ok_inv _ _ _ _ _ h3, getSeedField_ok_inv _ _ h4,
            getIntField_ok_inv _ _ _ _ _ h5]
        rfl
      rw [hok] at h
      exact Bool.noConfusion h
  · intro kvs h
    obtain ⟨r, hr, _⟩ := hpFromDict_ok kvs h
    exact ⟨r, hr⟩

/-- C3 witness: the amended theorem applied at concrete inputs — a
non-dict payload raises, and a mapping whose only key is a weird
optimizer value succeeds. -/
theorem c3_amended_witness :
    validate_hyperparams (PyVal.int 7) =
      Except.error (PyErr.valueError "`hyperparams` must be an object.") :=
  c3_amended_failure_conditions.1 (PyVal.int 7) rfl (fun h => PyVal.noConfusion h)

/-- C9: a layer mapping without a `type` key is treated exactly as an
explicit `{"type": "linear"}` layer (same result, including errors), and
on success it is a linear layer that advances `prev_out` to its `out`. -/
theorem c9_missing_type_treated_as_linear :
    ∀ (prev : Int) (kvs : PyDict), lookup "type" kvs = Option.none →
      sanitizeLayer prev (PyVal.dict kvs) =
        sanitizeLayer prev (PyVal.dict (("type", PyVal.str "linear") :: kvs))
      ∧ ∀ (lay : Layer) (prev2 : Int),
          sanitizeLayer prev (PyVal.dict kvs) = Except.ok (lay, prev2) →
          ∃ i o, lay = Layer.linear i o ∧ prev2 = o := by
  intro prev kvs ht
  have hin : lookup "in" (("type", PyVal.str "linear") :: kvs) = lookup "in" kvs := by
    simp [lookup]
  have hout : lookup "out" (("type", PyVal.str "linear") :: kvs) = lookup "out" kvs := by
    simp [lookup]
  have htype : lookup "type" (("type", PyVal.str "linear") :: kvs) = Option.some (PyVal.str "linear") := by
    simp [lookup]
  constructor
  · simp only [sanitizeLayer, ht, htype, hin, hout, Option.getD]
  · intro lay prev2 h
    simp only [sanitizeLayer, ht, Option.getD_none] at h
    have hlin : lowerStr (pyStr (PyVal.str "linear")) = "linear" := rfl
    rw [hlin, if_pos rfl] at h
    cases h1 : pyInt ((lookup "in" kvs).getD (PyVal.int prev)) with
    | error e => rw [h1] at h; cases h
    | ok i =>
      rw [h1] at h
      cases h2 : pyInt ((lookup "out" kvs).getD ((lookup "in" kvs).getD (PyVal.int prev))) with
      | error e => rw [h2] at h; cases h
      | ok o =>
        rw [h2] at h
        cases h
        exact ⟨_, _, rfl, rfl⟩

/-- C9 witness: the theorem applied to the empty layer mapping at
`prev_out = 784`. -/
theorem c9_witness :
    sanitizeLayer 784 (PyVal.dict []) =
      sanitizeLayer 784 (PyVal.dict [("type", PyVal.str "linear")]) :=
  (c9_missing_type_treated_as_linear 784 [] rfl).1

/-- C10 counterexample: a payload whose `optimizer` is a string does raise
when another field is malformed (`epochs` here), so "for every such
payload the call does not raise" is false as stated. -/
theorem c10_nondict_optimizer_can_still_raise :
    validate_hyperparams (PyVal.dict [("optimizer", PyVal.str "adam"), ("epochs", PyVal.str "x")]) =
      Except.error (PyErr.valueError "`hyperparams.epochs` must be an integer.") := rfl

/-- C10 (amended): a present but non-mapping `optimizer` value never
itself causes a raise: the call behaves exactly as if the key were absent,
and on success the optimizer sub-record equals the default optimizer
record. -/
theorem c10_amended_nondict_optimizer_ignored :
    ∀ (kvs : PyDict) (v : PyVal), lookup "optimizer" kvs = Option.some v → isDictV v = false →
      validate_hyperparams (PyVal.dict kvs) =
        validate_hyperparams (PyVal.dict (eraseKey "optimizer" kvs))
      ∧ ∀ r, validate_hyperparams (PyVal.dict kvs) = Except.ok r →
          r.optimizer = DEFAULT_OPTIMIZER := by
  intro kvs v hv hnd
  constructor
  · exact hpFromDict_ignores_bad_optimizer kvs v hv hnd
  · intro r hr
    have h1 := hpFromDict_optimizer kvs r hr
    rw [mergedOptimizer_nondict kvs v hv hnd, normalizeOptimizer_default] at h1
    exact h1

/-- C10 witness: the amended theorem applied to the concrete payload
`{"optimizer": "adam"}`. -/
theorem c10_amended_witness :
    validate_hyperparams (PyVal.dict [("optimizer", PyVal.str "adam")]) =
      validate_hyperparams (PyVal.dict (eraseKey "optimizer" [("optimizer", PyVal.str "adam")])) :=
  (c10_amended_nondict_optimizer_ignored [("optimizer", PyVal.str "adam")] (PyVal.str "adam") rfl rfl).1

/-- A non-mapping layer entry makes the per-layer step raise the layer
`ValueError`, whatever the running `prev_out`. -/
theorem specLayerStep_nondict (prev : Int) (l : PyVal) (h : isDictV l = false) :
    specLayerStep prev l =
      Except.error (PyErr.valueError "Each layer must be described by an object.") := by
  cases l with
  | dict kvs => simp [isDictV] at h
  | none => rfl
  | bool b => rfl
  | int n => rfl
  | float q => rfl
  | str s => rfl
  | list xs => rfl

/-- A linear layer entry with a supplied but non-coercible `in` or `out`
makes the per-layer step raise the dimensions `ValueError`, whatever the
running `prev_out` (a missing `in` defaults to the integer `prev_out`, so
only supplied values can fail). -/
theorem specLayerStep_bad_dims (prev : Int) (okvs : PyDict)
    (ht : lowerStr (pyStr ((lookup "type" okvs).getD (PyVal.str "linear"))) = "linear")
    (hbad : (∃ v, lookup "in" okvs = Option.some v ∧ exceptIsOk (pyInt v) = false) ∨
            (∃ v, lookup "out" okvs = Option.some v ∧ exceptIsOk (pyInt v) = false)) :
    specLayerStep prev (PyVal.dict okvs) =
      Except.error (PyErr.valueError "Linear layer dimensions must be integers.") := by
  simp only [specLayerStep]
  rw [ht, if_pos rfl]
  rcases hbad with ⟨v, hv, hb⟩ | ⟨v, hv, hb⟩
  · rw [hv]
    dsimp only
    cases hp : pyInt v with
    | ok m => rw [hp] at hb; simp [exceptIsOk] at hb
    | error e => rfl
  · cases hin : (match lookup "in" okvs with
                 | Option.some w => pyInt w
                 | Option.none => Except.ok prev) with
    | error e => rfl
    | ok i =>
      dsimp only
      rw [hv]
      dsimp only
      cases hp : pyInt v with
      | ok m => rw [hp] at hb; simp [exceptIsOk] at hb
      | error e => rfl

/-- An entry that fails at every `prev_out` makes the whole inference
pass fail. -/
theorem specPass_fails_of_bad_entry (xs : List PyVal) : ∀ (n : Int),
    (∃ l, l ∈ xs ∧ ∀ prev : Int, exceptIsOk (specLayerStep prev l) = false) →
    exceptIsOk (specPass n xs) = false := by
  induction xs with
  | nil =>
    intro n h
    obtain ⟨l, hl, _⟩ := h
    exact absurd hl (List.not_mem_nil l)
  | cons x xs ih =>
    intro n h
    obtain ⟨l, hl, hf⟩ := h
    cases hstep : specLayerStep n x with
    | error e => simp [specPass, hstep, exceptIsOk]
    | ok p =>
      obtain ⟨lay, prev2⟩ := p
      rcases List.mem_cons.mp hl with rfl | hmem
      · have hfx := hf n
        rw [hstep] at hfx
        simp [exceptIsOk] at hfx
      · have hrec := ih prev2 ⟨l, hmem, hf⟩
        simp only [specPass, hstep]
        cases hr : specPass prev2 xs with
        | error e => simp [exceptIsOk]
        | ok rest => rw [hr] at hrec; simp [exceptIsOk] at hrec

/-- When the inference pass fails on a non-empty `layers` list (with a
coercible `input_size`), the whole call fails with an
`InvalidArchitecture` (`ValueError`). -/
theorem validate_fails_of_pass_fails (kvs : PyDict) (xs : List PyVal) (n : Int)
    (hx : layersRaw kvs = PyVal.list xs) (hne : xs ≠ [])
    (hn : pyInt (inputSizeRaw kvs) = Except.ok n)
    (hfail : exceptIsOk (specPass n xs) = false) :
    ∃ msg, validate_architecture (PyVal.dict kvs) =
      Except.error (PyErr.valueError msg) := by
  have htr : pyTruthy (PyVal.list xs) = true := by
    cases xs with
    | nil => exact absurd rfl hne
    | cons a as => simp [pyTruthy]
  simp only [validate_architecture, hx]
  rw [if_pos htr, hn]
  dsimp only
  simp only [pyIter]
  cases hsl : sanitizeLayers n xs with
  | ok ls =>
    rw [sanitizeLayers_eq_specPass] at hsl
    rw [hsl] at hfail
    simp [exceptIsOk] at hfail
  | error e =>
    obtain ⟨msg, hmsg⟩ := sanitizeLayers_error_valueError xs n e hsl
    exact ⟨msg, by rw [hmsg]⟩

/-- C4 counterexample: `layers = 5` is truthy and not a sequence, yet the
failure is an uncaught `TypeError` from iterating a non-iterable — not an
`InvalidArchitecture` (`ValueError`) — refuting "rather than any other
failure". -/
theorem c4_truthy_int_layers_typeerror :
    validate_architecture (PyVal.dict [("layers", PyVal.int 5)]) =
      Except.error (PyErr.typeError "object is not iterable")
    ∧ okOrValueError (validate_architecture (PyVal.dict [("layers", PyVal.int 5)])) = false :=
  ⟨rfl, rfl⟩

/-- C4 (amended): `validate_architecture` fails with `InvalidArchitecture`
under the listed conditions — non-mapping payload; falsy (missing/empty)
`layers`; non-coercible `input_size`; non-mapping layer entry; linear
dimensions (after defaulting) non-coercible — except that a truthy
non-iterable `layers` value (number/boolean) raises `TypeError` instead.
Each direction is proved: the listed conditions raise (conjuncts 1-4 and
7-11: a failing inference pass, a non-mapping layer entry, a truthy
string/mapping `layers` value, and supplied non-coercible linear
dimensions each yield a `ValueError`), failures on iterable `layers` are
only ever `ValueError` (conjunct 5), and when no listed condition holds
the call succeeds (conjunct 6). -/
theorem c4_amended_error_conditions :
    (∀ p : PyVal, isDictV p = false →
        validate_architecture p = Except.error (PyErr.valueError "`architecture` must be an object."))
    ∧ (∀ kvs : PyDict, pyTruthy (layersRaw kvs) = false →
        validate_architecture (PyVal.dict kvs) =
          Except.error (PyErr.valueError "`architecture.layers` must contain at least one layer."))
    ∧ (∀ kvs : PyDict, pyTruthy (layersRaw kvs) = true →
        exceptIsOk (pyInt (inputSizeRaw kvs)) = false →
        validate_architecture (PyVal.dict kvs) =
          Except.error (PyErr.valueError "`architecture.input_size` must be convertible to int."))
    ∧ (∀ kvs : PyDict, pyTruthy (layersRaw kvs) = true → notIterable (layersRaw kvs) = true →
        ∀ n : Int, pyInt (inputSizeRaw kvs) = Except.ok n →
        validate_architecture (PyVal.dict kvs) =
          Except.error (PyErr.typeError "object is not iterable"))
    ∧ (∀ kvs : PyDict, notIterable (layersRaw kvs) = false →
        okOrValueError (validate_architecture (PyVal.dict kvs)) = true)
    ∧ (∀ (kvs : PyDict) (xs : List PyVal) (n : Int),
        layersRaw kvs = PyVal.list xs → xs ≠ [] → pyInt (inputSizeRaw kvs) = Except.ok n →
        exceptIsOk (specPass n xs) = true →
        ∃ a, validate_architecture (PyVal.dict kvs) = Except.ok a)
    ∧ (∀ (kvs : PyDict) (xs : List PyVal) (n : Int),
        layersRaw kvs = PyVal.list xs → xs ≠ [] → pyInt (inputSizeRaw kvs) = Except.ok n →
        exceptIsOk (specPass n xs) = false →
        ∃ msg, validate_architecture (PyVal.dict kvs) = Except.error (PyErr.valueError msg))
    ∧ (∀ (n : Int) (xs : List PyVal), (∃ l, l ∈ xs ∧ isDictV l = false) →
        exceptIsOk (specPass n xs) = false)
    ∧ (∀ (kvs : PyDict) (n : Int), pyTruthy (layersRaw kvs) = true →
        pyInt (inputSizeRaw kvs) = Except.ok n →
        ((∃ s, layersRaw kvs = PyVal.str s) ∨ (∃ d, layersRaw kvs = PyVal.dict d)) →
        validate_architecture (PyVal.dict kvs) =
          Except.error (PyErr.valueError "Each layer must be described by an object."))
    ∧ (∀ (prev : Int) (okvs : PyDict),
        lowerStr (pyStr ((lookup "type" okvs).getD (PyVal.str "linear"))) = "linear" →
        ((∃ v, lookup "in" okvs = Option.some v ∧ exceptIsOk (pyInt v) = false) ∨
         (∃ v, lookup "out" okvs = Option.some v ∧ exceptIsOk (pyInt v) = false)) →
        sanitizeLayer prev (PyVal.dict okvs) =
          Except.error (PyErr.valueError "Linear layer dimensions must be integers."))
    ∧ (∀ (kvs : PyDict) (xs : List PyVal) (n : Int) (l : PyVal),
        layersRaw kvs = PyVal.list xs → pyInt (inputSizeRaw kvs) = Except.ok n →
        l ∈ xs → isDictV l = false →
        ∃ msg, validate_architecture (PyVal.dict kvs) = Except.error (PyErr.valueError msg)) := by
  refine ⟨?_, ?_, ?_, ?_, ?_, ?_, ?_, ?_, ?_, ?_, ?_⟩
  · intro p hp
    cases p with
    | dict kvs => simp [isDictV] at hp
    | none => rfl
    | bool b => rfl
    | int n => rfl
    | float q => rfl
    | str s => rfl
    | list xs => rfl
  · intro kvs h
    simp [validate_architecture, h]
  · intro kvs h hbad
    simp only [validate_architecture, h, if_true]
    cases hpi : pyInt (inputSizeRaw kvs) with
    | error e => rfl
    | ok n => rw [hpi] at hbad; simp [exceptIsOk] at hbad
  · intro kvs h hni n hn
    simp only [validate_architecture, h, if_true]
    rw [hn, pyIter_notIterable (layersRaw kvs) hni]
  · intro kvs h
    simp only [validate_architecture]
    by_cases htr : pyTruthy (layersRaw kvs)
    · rw [if_pos htr]
      cases hpi : pyInt (inputSizeRaw kvs) with
      | error e => rfl
      | ok n =>
        obtain ⟨items, hit⟩ := pyIter_iterable_ok (layersRaw kvs) h
        rw [hit]
        dsimp only
        cases hsl : sanitizeLayers n items with
        | error e =>
          obtain ⟨msg, hmsg⟩ := sanitizeLayers_error_valueError items n e hsl
          subst hmsg
          rfl
        | ok ls => rfl
    · rw [if_neg htr]
      rfl
  · intro kvs xs n hx hne hn hok
    simp only [validate_architecture, hx]
    have htr : pyTruthy (PyVal.list xs) = true := by
      cases xs with
      | nil => exact absurd rfl hne
      | cons x xs => simp [pyTruthy]
    rw [if_pos htr, hn]
    have hsl : sanitizeLayers n xs = specPass n xs := sanitizeLayers_eq_specPass n xs
    cases hsp : specPass n xs with
    | error e => rw [hsp] at hok; simp [exceptIsOk] at hok
    | ok ls =>
      refine ⟨⟨n, ls⟩, ?_⟩
      simp only [pyIter]
      rw [hsl, hsp]
  · intro kvs xs n hx hne hn hfail
    exact validate_fails_of_pass_fails kvs xs n hx hne hn hfail
  · intro n xs h
    obtain ⟨l, hm, hd⟩ := h
    exact specPass_fails_of_bad_entry xs n
      ⟨l, hm, fun prev => by rw [specLayerStep_nondict prev l hd]; rfl⟩
  · intro kvs n htr hn hcase
    rcases hcase with ⟨s, hx⟩ | ⟨d, hx⟩
    · rw [hx] at htr
      simp only [validate_architecture, hx]
      rw [if_pos htr, hn]
      dsimp only
      cases s with
      | mk cs =>
        cases cs with
        | nil => exact absurd htr (by decide)
        | cons c cs2 => rfl
    · rw [hx] at htr
      simp only [validate_architecture, hx]
      rw [if_pos htr, hn]
      dsimp only
      cases d with
      | nil => exact absurd htr (by decide)
      | cons kv rest => rfl
  · intro prev okvs ht hbad
    rw [sanitizeLayer_eq_spec]
    exact specLayerStep_bad_dims prev okvs ht hbad
  · intro kvs xs n l hx hn hm hd
    have hne : xs ≠ [] := by
      intro hnil
      rw [hnil] at hm
      exact absurd hm (List.not_mem_nil l)
    exact validate_fails_of_pass_fails kvs xs n hx hne hn
      (specPass_fails_of_bad_entry xs n
        ⟨l, hm, fun prev => by rw [specLayerStep_nondict prev l hd]; rfl⟩)

/-- C4 witness: the amended theorem's first condition applied at a
concrete non-mapping payload. -/
theorem c4_amended_witness :
    validate_architecture (PyVal.int 3) =
      Except.error (PyErr.valueError "`architecture` must be an object.") :=
  c4_amended_error_conditions.1 (PyVal.int 3) rfl

/-- C5 counterexample: `input_size = 0` is accepted unchanged, so the
claimed invariant `input_size ≥ 1` does not hold for every returned
`ArchitectureSpec`. -/
theorem c5_input_size_zero_accepted :
    validate_architecture (PyVal.dict
        [("input_size", PyVal.int 0),
         ("layers", PyVal.list [PyVal.dict [("type", PyVal.str "relu")]])]) =
      Except.ok ⟨0, [Layer.other "relu"]⟩ :=
  rfl

/-- C5 (amended): every `ArchitectureSpec` returned by
`validate_architecture` has a non-empty `layers` sequence; no lower bound
on `input_size` is enforced (0 or negative values pass through). -/
theorem c5_amended_layers_nonempty :
    ∀ (p : PyVal) (a : ArchitectureSpec),
      validate_architecture p = Except.ok a → a.layers ≠ [] := by
  intro p a h
  cases p with
  | dict kvs =>
    simp only [validate_architecture] at h
    by_cases htr : pyTruthy (layersRaw kvs)
    · rw [if_pos htr] at h
      cases hpi : pyInt (inputSizeRaw kvs) with
      | error e => rw [hpi] at h; cases h
      | ok n =>
        rw [hpi] at h
        dsimp only at h
        cases hit : pyIter (layersRaw kvs) with
        | error e => rw [hit] at h; cases h
        | ok items =>
          rw [hit] at h
          dsimp only at h
          cases hsl : sanitizeLayers n items with
          | error e => rw [hsl] at h; cases h
          | ok ls =>
            rw [hsl] at h
            cases h
            have hlen := sanitizeLayers_length items n ls hsl
            have hne := pyIter_truthy_ne_nil (layersRaw kvs) items htr hit
            intro hnil
            have hnil2 : ls = [] := hnil
            rw [hnil2] at hlen
            exact hne (List.eq_nil_of_length_eq_zero hlen.symm)
    · rw [if_neg htr] at h; cases h
  | none => cases h
  | bool b => cases h
  | int n => cases h
  | float q => cases h
  | str s => cases h
  | list xs => cases h

/-- C5 witness: the amended theorem applied to a concrete accepted
payload. -/
theorem c5_amended_witness :
    (ArchitectureSpec.mk 784 [Layer.linear 784 784]).layers ≠ [] :=
  c5_amended_layers_nonempty (PyVal.dict [("layers", PyVal.list [PyVal.dict []])])
    (ArchitectureSpec.mk 784 [Layer.linear 784 784]) rfl

set_option maxRecDepth 8000 in
/-- C6 counterexample: at the reachable call `prepare_dataloaders(50,
0.29, _, 100, _)` the total is 100 and the source's `int(100 * 0.29)` is
28 under IEEE-754 double arithmetic (0.29 stores as a double strictly
below 29/100, and the product rounds below 29), while the claim's exact
`max(1, floor(total * train_split))` is 29 — so the claimed train_len
formula is false of the program. -/
theorem c6_float_rounding_diverges :
    trainLenOf 100 splitPoint29 = 28
    ∧ specTrainLen 100 splitPoint29 = 29
    ∧ totalSamplesOf 50 (Option.some 100) = 100 := by
  refine ⟨by decide, ?_, by decide⟩
  unfold specTrainLen
  have h1 : ((100 : Int) : Rat) * splitPoint29 = ((29 : Int) : Rat) := by
    rw [← Rat.num_div_den splitPoint29]
    show ((100 : Int) : Rat) * (((29 : Int) : Rat) / ((100 : Nat) : Rat)) = _
    push_cast
    ring_nf
  rw [h1, Int.floor_intCast]
  norm_num

/-- C6 (amended): the total sample count follows the spec formula;
`train_len` equals `max(1, int(fl(fl(total) * fl(train_split))))` — the
binary64 product, truncated toward zero — with the whole-set clamp,
which can fall below the exact `floor(total * train_split)`;
`val_len = max(1, total - train_len)`; and the two parts always
partition the total with both at least 1. -/
theorem c6_amended_split_arithmetic :
    ∀ (bs : Int) (ms : Option Int) (split : Rat),
      totalSamplesOf bs ms = specTotalSamples bs ms
      ∧ trainLenOf (totalSamplesOf bs ms) split = specTrainLenFloat (totalSamplesOf bs ms) split
      ∧ valLenOf (totalSamplesOf bs ms) (trainLenOf (totalSamplesOf bs ms) split)
          = max 1 (totalSamplesOf bs ms - trainLenOf (totalSamplesOf bs ms) split)
      ∧ trainLenOf (totalSamplesOf bs ms) split
          + valLenOf (totalSamplesOf bs ms) (trainLenOf (totalSamplesOf bs ms) split)
          = totalSamplesOf bs ms
      ∧ 1 ≤ trainLenOf (totalSamplesOf bs ms) split
      ∧ 1 ≤ valLenOf (totalSamplesOf bs ms) (trainLenOf (totalSamplesOf bs ms) split) := by
  intro bs ms split
  have htot : 2 ≤ totalSamplesOf bs ms := totalSamplesOf_ge_two bs ms
  obtain ⟨hlo, hhi⟩ := trainLenOf_bounds (totalSamplesOf bs ms) split htot
  have hval : valLenOf (totalSamplesOf bs ms) (trainLenOf (totalSamplesOf bs ms) split)
      = totalSamplesOf bs ms - trainLenOf (totalSamplesOf bs ms) split := by
    unfold valLenOf
    exact max_eq_right (by omega)
  refine ⟨rfl, rfl, rfl, ?_, hlo, ?_⟩
  · rw [hval]; omega
  · rw [hval]; omega
